import Mathlib

/-!
Shallow embedding of the Fruit Catcher `GameEngine` (gameEngine.js) and proofs
of the specification's claims about it.

Modelling conventions:
  * JS numbers are modelled as `ℚ` (positions, times) or `ℕ` (score, level,
    lanes, counters); all arithmetic in the source is exact on these values.
  * `Date.now()` reads are passed in as an explicit `now : ℚ` (milliseconds).
  * `Math.random()` draws are passed in as explicit roll parameters in `[0,1)`.
  * The registered `onGameEnd` callback is modelled by a `Bool` flag recording
    whether a callback is registered; each invocation of the callback is
    recorded as an emitted event `(score, level)`.  Mutating operations return
    the new state together with the list of events emitted during the call.
-/

/-- The three item kinds of the game: `"apple"`, `"grape"`, `"bomb"`. -/
inductive ItemType where
  | apple
  | grape
  | bomb
deriving DecidableEq, Repr

/-- A falling item, as pushed by `spawnItem`:
`{ x, y, lane, type, active }`. -/
structure Item where
  x : ℚ
  y : ℚ
  lane : ℕ
  type : ItemType
  active : Bool
deriving DecidableEq, Repr

/-- The mutable state of `GameEngine`.  `onGameEnd` records whether a game-end
callback has been registered (`setGameEndCallback`). -/
structure GameEngine where
  score : ℕ
  level : ℕ
  timeLimit : ℚ
  isGameActive : Bool
  basketPosition : ℕ
  items : List Item
  spawnTimer : ℕ
  startTime : ℚ
  onGameEnd : Bool
deriving DecidableEq, Repr

/-- `this.lanes = [100, 300, 500]` — the x-centre of each of the three lanes. -/
def lanes : List ℚ := [100, 300, 500]

/-- `start(config)`'s config object; `timeLimit` is absent or a number.  The JS
`config.timeLimit || 60` default is modelled by treating `0` (the only falsy
number representable here) and absence as "use 60". -/
structure Config where
  timeLimit : Option ℚ
deriving DecidableEq, Repr

/-- `start(config = {})`: activates the round and resets all mutable fields,
recording the current time as the round start. -/
def GameEngine.start (e : GameEngine) (config : Config) (now : ℚ) : GameEngine :=
  { e with
    isGameActive := true
    score := 0
    level := 1
    timeLimit :=
      match config.timeLimit with
      | none => 60
      | some t => if t = 0 then 60 else t
    items := []
    basketPosition := 1
    spawnTimer := 0
    startTime := now }

/-- `stop()`: sets `isGameActive = false` and, if a callback is registered,
invokes it with the current score and level.  Returns the new state and the
list of callback invocations made by this call. -/
def GameEngine.stop (e : GameEngine) : GameEngine × List (ℕ × ℕ) :=
  let e1 := { e with isGameActive := false }
  if e1.onGameEnd then (e1, [(e1.score, e1.level)]) else (e1, [])

/-- `onPoseDetected(poseName)`: while active, the labels `"왼쪽"` (left),
`"정면"` (center), `"오른쪽"` (right) move the basket to lane 0 / 1 / 2. -/
def GameEngine.onPoseDetected (e : GameEngine) (poseName : String) : GameEngine :=
  if e.isGameActive = false then e
  else if poseName = "왼쪽" then { e with basketPosition := 0 }
  else if poseName = "정면" then { e with basketPosition := 1 }
  else if poseName = "오른쪽" then { e with basketPosition := 2 }
  else e

/-- The item object built by `spawnItem()`: the lane is
`Math.floor(Math.random() * 3)`, the kind comes from a second roll
(`bomb` when `level >= 2 && typeRoll > 0.8`, else `grape` when
`typeRoll > 0.6`, else `apple`), and the item starts at `y = -50`, active.
The two `Math.random()` draws are the parameters `laneRoll` and `typeRoll`. -/
def GameEngine.spawnedItem (e : GameEngine) (laneRoll typeRoll : ℚ) : Item :=
  let laneIndex : ℕ := (⌊laneRoll * 3⌋).toNat
  let type : ItemType :=
    if 2 ≤ e.level ∧ 8/10 < typeRoll then ItemType.bomb
    else if 6/10 < typeRoll then ItemType.grape
    else ItemType.apple
  { x := lanes.getD laneIndex 0
    y := -50
    lane := laneIndex
    type := type
    active := true }

/-- `spawnItem()`: pushes the newly built item onto `items`. -/
def GameEngine.spawnItem (e : GameEngine) (laneRoll typeRoll : ℚ) : GameEngine :=
  { e with items := e.items ++ [e.spawnedItem laneRoll typeRoll] }

/-- `handleCollision(item)`: marks the item inactive; a bomb calls `stop()`
(ending the round), an apple adds 100 and a grape adds 200 to the score.
Returns the updated engine, the updated item, and the emitted events. -/
def GameEngine.handleCollision (e : GameEngine) (item : Item) :
    GameEngine × Item × List (ℕ × ℕ) :=
  if item.type = ItemType.bomb then
    let item1 := { item with active := false }
    let se := GameEngine.stop e
    (se.1, item1, se.2)
  else
    let item1 := { item with active := false }
    let e1 :=
      if item.type = ItemType.apple then { e with score := e.score + 100 } else e
    let e2 :=
      if item.type = ItemType.grape then { e1 with score := e1.score + 200 } else e1
    (e2, item1, [])

/-- One iteration of the `for` loop in `updateItems`: an inactive item is
skipped; an active item advances by `speed`, is checked against the catch band
`500 < y < 560` in the basket's lane, and is deactivated past `y > 650`.
The accumulator carries the engine, the processed items, and emitted events. -/
def stepItem (speed : ℚ) (acc : GameEngine × List Item × List (ℕ × ℕ))
    (item : Item) : GameEngine × List Item × List (ℕ × ℕ) :=
  let e := acc.1
  if item.active = false then (e, acc.2.1 ++ [item], acc.2.2)
  else
    let item1 := { item with y := item.y + speed }
    let r :=
      if 500 < item1.y ∧ item1.y < 560 ∧ item1.lane = e.basketPosition then
        GameEngine.handleCollision e item1
      else (e, item1, [])
    let item2 := if 650 < r.2.1.y then { r.2.1 with active := false } else r.2.1
    (r.1, acc.2.1 ++ [item2], acc.2.2 ++ r.2.2)

/-- The per-tick drop speed computed at the top of `updateItems()`:
`const speed = 3 + (this.level * 2)`. -/
def speedFor (level : ℕ) : ℚ := 3 + (level : ℚ) * 2

/-- `updateItems()`: computes `speed = 3 + level * 2` once, runs the loop over
the item list, then purges inactive items. -/
def GameEngine.updateItems (e : GameEngine) : GameEngine × List (ℕ × ℕ) :=
  let speed : ℚ := speedFor e.level
  let r := e.items.foldl (stepItem speed) (e, [], [])
  ({ r.1 with items := r.2.1.filter (fun it => it.active) }, r.2.2)

/-- The level computation of `update()`:
`if elapsed < 20 → 1, else if elapsed < 40 → 2, else 3`. -/
def levelFor (elapsed : ℚ) : ℕ :=
  if elapsed < 20 then 1 else if elapsed < 40 then 2 else 3

/-- `update()` (the per-frame tick): no-op while inactive; otherwise derives
elapsed time and level, stops on timeout, advances the spawn timer (spawning
when it exceeds `max(20, 60 - level*10)`), and runs `updateItems`. -/
def GameEngine.update (e : GameEngine) (now laneRoll typeRoll : ℚ) :
    GameEngine × List (ℕ × ℕ) :=
  if e.isGameActive = false then (e, [])
  else
    let elapsed : ℚ := (now - e.startTime) / 1000
    let remaining : ℚ := e.timeLimit - elapsed
    let e1 := { e with level := levelFor elapsed }
    if remaining ≤ 0 then GameEngine.stop e1
    else
      let e2 := { e1 with spawnTimer := e1.spawnTimer + 1 }
      let currentSpawnInterval : ℤ := max 20 (60 - (e2.level : ℤ) * 10)
      let e3 :=
        if currentSpawnInterval < (e2.spawnTimer : ℤ) then
          { e2.spawnItem laneRoll typeRoll with spawnTimer := 0 }
        else e2
      GameEngine.updateItems e3

/-- The remaining-time value computed by `render`:
`elapsed = Math.floor((now - startTime) / 1000); max(0, timeLimit - elapsed)`. -/
def GameEngine.renderRemaining (e : GameEngine) (now : ℚ) : ℚ :=
  let elapsed : ℤ := ⌊(now - e.startTime) / 1000⌋
  max 0 (e.timeLimit - (elapsed : ℚ))

/-! ### Concrete states used in witnesses and counterexamples -/

/-- A freshly started round (time limit 60, started at time 0) with a
registered game-end callback and an empty play field. -/
def engA : GameEngine :=
  { score := 0, level := 1, timeLimit := 60, isGameActive := true,
    basketPosition := 1, items := [], spawnTimer := 0, startTime := 0,
    onGameEnd := true }

/-- An apple in the centre lane at `y = 497`: one tick at level 1
(speed 5) puts it at `502`, inside the catch band. -/
def item497 : Item :=
  { x := 300, y := 497, lane := 1, type := ItemType.apple, active := true }

/-- An apple in the centre lane at `y = 495`: one tick at level 1
(speed 5) puts it at exactly `500`, the boundary of the catch band. -/
def item495 : Item :=
  { x := 300, y := 495, lane := 1, type := ItemType.apple, active := true }

/-- A bomb in the centre lane at `y = 497`. -/
def bomb497 : Item :=
  { x := 300, y := 497, lane := 1, type := ItemType.bomb, active := true }

/-- The fresh round with the single apple `item497` on the field. -/
def engApple : GameEngine := { engA with items := [item497] }

/-- The fresh round with the single apple `item495` on the field. -/
def eng500 : GameEngine := { engA with items := [item495] }

/-- The fresh round with two bombs in the basket's lane, both of which reach
the catch band in the same tick. -/
def engBombs : GameEngine := { engA with items := [bomb497, bomb497] }

/-- Position of a falling item over successive ticks, as a function of the
per-tick level sequence: it spawns at `y = -50` (`spawnedItem`) and each tick
adds `speedFor` of the current level (`updateItems`). -/
def itemTrajectory (L : ℕ → ℕ) : ℕ → ℚ
  | 0 => -50
  | n + 1 => itemTrajectory L n + speedFor (L n)

/-! ### Preservation lemmas for the engine fields -/

theorem stop_fst (e : GameEngine) : (e.stop).1 = { e with isGameActive := false } := by
  simp only [GameEngine.stop]
  split <;> rfl

theorem handleCollision_level (e : GameEngine) (item : Item) :
    (e.handleCollision item).1.level = e.level := by
  simp only [GameEngine.handleCollision, GameEngine.stop]
  split_ifs <;> rfl

theorem stepItem_level (speed : ℚ) (acc : GameEngine × List Item × List (ℕ × ℕ))
    (item : Item) : (stepItem speed acc item).1.level = acc.1.level := by
  simp only [stepItem]
  split
  · rfl
  · split
    · simp [handleCollision_level]
    · rfl

theorem foldl_stepItem_level (speed : ℚ) (l : List Item)
    (acc : GameEngine × List Item × List (ℕ × ℕ)) :
    (l.foldl (stepItem speed) acc).1.level = acc.1.level := by
  induction l generalizing acc with
  | nil => rfl
  | cons a l ih => rw [List.foldl_cons, ih, stepItem_level]

theorem updateItems_level (e : GameEngine) : (e.updateItems).1.level = e.level := by
  unfold GameEngine.updateItems
  simp [foldl_stepItem_level]

theorem spawnItem_level (e : GameEngine) (laneRoll typeRoll : ℚ) :
    (e.spawnItem laneRoll typeRoll).level = e.level := rfl

/-! ### Claims C7, C9, C8, C4 -/

/-- Claim C7: for every configuration, `start()` sets the score to 0, the level
to 1, the items collection to empty, the basket to the centre lane 1, the
active flag to true, and records the current time as the round start. -/
theorem claim_C7 (e : GameEngine) (config : Config) (now : ℚ) :
    (e.start config now).score = 0 ∧
    (e.start config now).level = 1 ∧
    (e.start config now).items = [] ∧
    (e.start config now).basketPosition = 1 ∧
    (e.start config now).isGameActive = true ∧
    (e.start config now).startTime = now :=
  ⟨rfl, rfl, rfl, rfl, rfl, rfl⟩

/-- Claim C9: `stop()` modifies only the active flag — every other field
(score, level, timeLimit, basketPosition, items, spawnTimer, startTime,
callback registration) is unchanged — and the observer, when registered,
receives exactly the score and level held before the call. -/
theorem claim_C9 (e : GameEngine) :
    (e.stop).1 = { e with isGameActive := false } ∧
    (e.stop).2 = (if e.onGameEnd then [(e.score, e.level)] else []) := by
  refine ⟨stop_fst e, ?_⟩
  by_cases h : e.onGameEnd <;> simp [GameEngine.stop, h]

/-- Claim C8: while active, the labels `"왼쪽"`/`"정면"`/`"오른쪽"`
(left / center / right) set the basket lane to 0 / 1 / 2; while inactive any
label leaves the state unchanged; and any label outside the three-label
vocabulary never changes the basket lane. -/
theorem claim_C8 (e : GameEngine) (label : String) :
    (e.isGameActive = true →
      (e.onPoseDetected "왼쪽").basketPosition = 0 ∧
      (e.onPoseDetected "정면").basketPosition = 1 ∧
      (e.onPoseDetected "오른쪽").basketPosition = 2) ∧
    (e.isGameActive = false → e.onPoseDetected label = e) ∧
    (label ≠ "왼쪽" → label ≠ "정면" → label ≠ "오른쪽" →
      (e.onPoseDetected label).basketPosition = e.basketPosition) := by
  unfold GameEngine.onPoseDetected
  refine ⟨fun h => ?_, fun h => ?_, fun h1 h2 h3 => ?_⟩
  · simp [h]
  · simp [h]
  · split_ifs <;> simp_all

/-- Witness for C8 at the concrete active engine `engA` and the unrecognized
label `"up"`. -/
theorem claim_C8_witness :
    (engA.onPoseDetected "왼쪽").basketPosition = 0 ∧
    (engA.onPoseDetected "정면").basketPosition = 1 ∧
    (engA.onPoseDetected "오른쪽").basketPosition = 2 ∧
    (engA.onPoseDetected "up").basketPosition = engA.basketPosition := by
  have h := claim_C8 engA "up"
  exact ⟨(h.1 rfl).1, (h.1 rfl).2.1, (h.1 rfl).2.2,
    h.2.2 (by decide) (by decide) (by decide)⟩

/-- Claim C4: the level computed by `update()` is a pure function of the
elapsed time `e` in seconds: 1 on `[0,20)`, 2 on `[20,40)`, 3 on `[40,∞)`. -/
theorem claim_C4 (e : GameEngine) (now laneRoll typeRoll : ℚ)
    (h : e.isGameActive = true) :
    (e.update now laneRoll typeRoll).1.level = levelFor ((now - e.startTime) / 1000) ∧
    (∀ x : ℚ, (0 ≤ x → x < 20 → levelFor x = 1) ∧
      (20 ≤ x → x < 40 → levelFor x = 2) ∧
      (40 ≤ x → levelFor x = 3)) := by
  constructor
  · simp only [GameEngine.update, h, Bool.true_eq_false, if_false]
    split
    · rw [stop_fst]
    · rw [updateItems_level]
      split <;> rfl
  · intro x
    unfold levelFor
    refine ⟨fun _ h2 => by simp [h2], fun h1 h2 => ?_, fun h1 => ?_⟩
    · rw [if_neg (by linarith), if_pos h2]
    · rw [if_neg (by linarith), if_neg (by linarith)]

/-- Witness for C4: the freshly started round `engA` ticked at time 0, and the
three level bands evaluated at 10, 20 and 40 seconds. -/
theorem claim_C4_witness :
    (engA.update 0 0 0).1.level = levelFor ((0 - engA.startTime) / 1000) ∧
    levelFor 10 = 1 ∧ levelFor 20 = 2 ∧ levelFor 40 = 3 := by
  have h := claim_C4 engA 0 0 0 rfl
  exact ⟨h.1, (h.2 10).1 (by norm_num) (by norm_num),
    (h.2 20).2.1 (by norm_num) (by norm_num), (h.2 40).2.2 (by norm_num)⟩

/-- Claim C3: resolving a collision with an apple adds exactly 100 to the
score and removes the item; a grape adds exactly 200 and removes the item; a
bomb leaves the score unchanged, deactivates the round, and invokes the end
observer once with the pre-collision score and the current level. -/
theorem claim_C3 (e : GameEngine) (it : Item)
    (hcb : e.onGameEnd = true)
    (hitems : e.items = [it])
    (hia : it.active = true)
    (hband1 : 500 < it.y + speedFor e.level)
    (hband2 : it.y + speedFor e.level < 560)
    (hlane : it.lane = e.basketPosition) :
    (it.type = ItemType.apple →
      e.updateItems = ({ e with score := e.score + 100, items := [] }, [])) ∧
    (it.type = ItemType.grape →
      e.updateItems = ({ e with score := e.score + 200, items := [] }, [])) ∧
    (it.type = ItemType.bomb →
      e.updateItems = ({ e with isGameActive := false, items := [] },
        [(e.score, e.level)])) := by
  obtain ⟨sc, lv, tl, ga, bp, its, spt, stt, ocb⟩ := e
  obtain ⟨ix, iy, il, ity, ia⟩ := it
  subst hcb hitems hia hlane
  have hno650 : ¬(650:ℚ) < iy + speedFor lv := by
    intro hcon
    exact absurd hband2 (by linarith)
  refine ⟨fun hty => ?_, fun hty => ?_, fun hty => ?_⟩ <;> subst hty <;>
    simp [GameEngine.updateItems, stepItem, GameEngine.handleCollision,
      GameEngine.stop, hband1, hband2, hno650]

/-- Witness for C3: the apple `item497` in the basket's lane is caught in one
tick of the fresh round `engApple`, adding 100 and emptying the field. -/
theorem claim_C3_witness :
    engApple.updateItems =
      ({ engApple with score := engApple.score + 100, items := [] }, []) := by
  have h := claim_C3 engApple item497 rfl rfl rfl
    (by norm_num [item497, engApple, engA, speedFor])
    (by norm_num [item497, engApple, engA, speedFor]) rfl
  exact h.1 rfl

/-- Claim C2, amended: in a tick of an active round, an item's collision is
resolved exactly when its post-advance position lies in the OPEN band
`(500, 560)` — a position of exactly 500 is excluded — and its lane equals
the basket's lane. -/
theorem claim_C2 (e : GameEngine) (it : Item)
    (hactive : e.isGameActive = true)
    (hia : it.active = true)
    (hle : it.y + speedFor e.level ≤ 650) :
    (stepItem (speedFor e.level) (e, [], []) it).2.1
        = [{ it with y := it.y + speedFor e.level, active := false }] ↔
      (500 < it.y + speedFor e.level ∧ it.y + speedFor e.level < 560 ∧
        it.lane = e.basketPosition) := by
  obtain ⟨ix, iy, il, ity, ia⟩ := it
  subst hia
  have h650 : ¬(650:ℚ) < iy + speedFor e.level := not_lt.2 hle
  by_cases h1 : (500:ℚ) < iy + speedFor e.level <;>
  by_cases h2 : iy + speedFor e.level < (560:ℚ) <;>
  by_cases h3 : il = e.basketPosition <;>
  cases ity <;>
    simp [stepItem, GameEngine.handleCollision, GameEngine.stop,
      h1, h2, h3, h650, Item.mk.injEq]

/-- Counterexample to C2 as stated: in the fresh round `eng500` the apple
`item495` advances to exactly `y = 500` in the basket's lane, yet no collision
is resolved — the score is unchanged and the item survives the tick, still
active at `y = 500`. -/
theorem claim_C2_counterexample :
    item495.y + speedFor eng500.level = 500 ∧
    item495.lane = eng500.basketPosition ∧
    (eng500.updateItems).1.score = eng500.score ∧
    (eng500.updateItems).1.items = [{ item495 with y := 500 }] := by
  norm_num [item495, eng500, engA, speedFor, GameEngine.updateItems, stepItem,
    GameEngine.handleCollision, GameEngine.stop]

/-- Witness for C2: the apple `item497` advances to 502, inside the open band,
and the tick resolves its collision, marking it inactive. -/
theorem claim_C2_witness :
    (stepItem (speedFor engA.level) (engA, [], []) item497).2.1
      = [{ item497 with y := item497.y + speedFor engA.level, active := false }] := by
  exact (claim_C2 engA item497 rfl rfl
      (by norm_num [item497, engA, speedFor])).mpr
    (by norm_num [item497, engA, speedFor, engA])

/-- Claim C1 (code behaviour at the failing input): with a callback registered,
two consecutive `stop()` calls invoke the round-end observer twice, and a tick
in which two bombs reach the catch band invokes it twice as well — not exactly
once per round as the claim requires. -/
theorem claim_C1 :
    ((engA.stop).2 ++ ((engA.stop).1.stop).2).length = 2 ∧
    ((engBombs.updateItems).2).length = 2 := by
  refine ⟨rfl, ?_⟩
  norm_num [engBombs, engA, bomb497, GameEngine.updateItems, stepItem, speedFor,
    GameEngine.handleCollision, GameEngine.stop]

/-- Claim C5, amended: for an integer time limit, the remaining time shown by
`render` equals `max(0, timeLimitSeconds − elapsed)` rounded UP to an integer
(the ceiling) — equivalently `max(0, timeLimit − ⌊elapsed⌋)`, since the code
floors the elapsed time before subtracting — not rounded down. -/
theorem claim_C5 (e : GameEngine) (now : ℚ) (tl : ℤ)
    (htl : e.timeLimit = (tl : ℚ)) (hpos : 0 < tl) :
    e.renderRemaining now =
      ((max 0 ⌈e.timeLimit - (now - e.startTime) / 1000⌉ : ℤ) : ℚ) := by
  simp only [GameEngine.renderRemaining, htl]
  have h1 : (tl : ℚ) - (now - e.startTime) / 1000
      = -((now - e.startTime) / 1000) + (tl : ℚ) := by ring
  rw [h1, Int.ceil_add_int, Int.ceil_neg]
  push_cast [Int.cast_max]
  have h2 : -((⌊(now - e.startTime) / 1000⌋ : ℚ)) + (tl : ℚ)
      = (tl : ℚ) - (⌊(now - e.startTime) / 1000⌋ : ℚ) := by ring
  rw [h2]

/-- Counterexample to C5 as stated: in `engA` (time limit 60, started at 0) at
`now = 500` ms the elapsed time is 0.5 s, the code shows 60 remaining seconds,
but `⌊max(0, 60 − 0.5)⌋ = 59`. -/
theorem claim_C5_counterexample :
    engA.renderRemaining 500 ≠
      ((⌊max 0 (engA.timeLimit - (500 - engA.startTime) / 1000)⌋ : ℤ) : ℚ) := by
  norm_num [GameEngine.renderRemaining, engA]

/-- Witness for C5 at `engA` with `now = 500` ms and time limit 60. -/
theorem claim_C5_witness :
    engA.renderRemaining 500 =
      ((max 0 ⌈engA.timeLimit - (500 - engA.startTime) / 1000⌉ : ℤ) : ℚ) :=
  claim_C5 engA 500 60 (by norm_num [engA]) (by norm_num)

/-- Claim C6: a spawn appends exactly one new item, starting at `y = −50`,
active, in a lane drawn uniformly from `{0, 1, 2}` (lane `k` exactly when the
roll falls in `[k/3, (k+1)/3)`, an interval of length 1/3); its kind is a bomb
iff `level ≥ 2` and the type roll exceeds 0.8, else a grape iff the roll
exceeds 0.6, else an apple — so a bomb is impossible at level 1. -/
theorem claim_C6 (e : GameEngine) (laneRoll typeRoll : ℚ)
    (h0 : 0 ≤ laneRoll) (h1 : laneRoll < 1)
    (h2 : 0 ≤ typeRoll) (h3 : typeRoll < 1) :
    (e.spawnItem laneRoll typeRoll).items
        = e.items ++ [e.spawnedItem laneRoll typeRoll] ∧
    (e.spawnedItem laneRoll typeRoll).y = -50 ∧
    (e.spawnedItem laneRoll typeRoll).active = true ∧
    (e.spawnedItem laneRoll typeRoll).lane < 3 ∧
    (∀ k : ℕ, (e.spawnedItem laneRoll typeRoll).lane = k ↔
      (k : ℚ) / 3 ≤ laneRoll ∧ laneRoll < ((k : ℚ) + 1) / 3) ∧
    ((e.spawnedItem laneRoll typeRoll).type = ItemType.bomb ↔
      2 ≤ e.level ∧ 8/10 < typeRoll) ∧
    ((e.spawnedItem laneRoll typeRoll).type = ItemType.grape ↔
      ¬(2 ≤ e.level ∧ 8/10 < typeRoll) ∧ 6/10 < typeRoll) ∧
    ((e.spawnedItem laneRoll typeRoll).type = ItemType.apple ↔
      ¬(2 ≤ e.level ∧ 8/10 < typeRoll) ∧ ¬(6/10 < typeRoll)) ∧
    (e.level = 1 → (e.spawnedItem laneRoll typeRoll).type ≠ ItemType.bomb) := by
  have hf0 : 0 ≤ ⌊laneRoll * 3⌋ := Int.floor_nonneg.2 (by positivity)
  have hf3 : ⌊laneRoll * 3⌋ < 3 := by
    rw [Int.floor_lt]
    push_cast
    linarith
  refine ⟨rfl, rfl, rfl, ?_, ?_, ?_, ?_, ?_, ?_⟩
  · simp only [GameEngine.spawnedItem]
    omega
  · intro k
    simp only [GameEngine.spawnedItem]
    have hk : (⌊laneRoll * 3⌋).toNat = k ↔ ⌊laneRoll * 3⌋ = (k : ℤ) := by omega
    rw [hk, Int.floor_eq_iff]
    constructor
    · rintro ⟨ha, hb⟩
      push_cast at ha hb
      constructor <;> linarith
    · rintro ⟨ha, hb⟩
      push_cast
      constructor <;> linarith
  · simp only [GameEngine.spawnedItem]
    split_ifs with ha hb
    · simp [ha]
    · simp [ha]
    · simp [ha]
  · simp only [GameEngine.spawnedItem]
    split_ifs with ha hb
    · simp [ha]
    · simp [ha, hb]
    · simp [ha, hb]
  · simp only [GameEngine.spawnedItem]
    split_ifs with ha hb
    · simp [ha]
    · simp [ha, hb]
    · simp [ha, hb]
  · intro hl
    simp only [GameEngine.spawnedItem]
    split_ifs with ha hb
    · exact absurd ha.1 (by omega)
    · simp
    · simp

/-- Witness for C6 at `engA` (level 1) with lane roll 1/2 and type roll 7/10:
the spawn appends one active grape at `y = −50` in the centre lane. -/
theorem claim_C6_witness :
    (engA.spawnItem (1/2) (7/10)).items
        = engA.items ++ [engA.spawnedItem (1/2) (7/10)] ∧
    (engA.spawnedItem (1/2) (7/10)).y = -50 ∧
    (engA.spawnedItem (1/2) (7/10)).active = true ∧
    (engA.spawnedItem (1/2) (7/10)).lane = 1 ∧
    (engA.spawnedItem (1/2) (7/10)).type = ItemType.grape ∧
    (engA.spawnedItem (1/2) (7/10)).type ≠ ItemType.bomb := by
  have h := claim_C6 engA (1/2) (7/10)
    (by norm_num) (by norm_num) (by norm_num) (by norm_num)
  refine ⟨h.1, h.2.1, h.2.2.1, ?_, ?_, ?_⟩
  · exact (h.2.2.2.2.1 1).mpr (by norm_num)
  · exact h.2.2.2.2.2.2.1.mpr ⟨by norm_num [engA], by norm_num⟩
  · exact h.2.2.2.2.2.2.2.2 rfl

/-- Closed form of the trajectory under the constant level-1 sequence. -/
theorem itemTrajectory_const_one (n : ℕ) :
    itemTrajectory (fun _ => 1) n = -50 + 5 * (n : ℚ) := by
  induction n with
  | zero => simp [itemTrajectory]
  | succ m ih =>
      simp only [itemTrajectory, ih, speedFor]
      push_cast
      ring

/-- Claim C10: an item spawned at `y = −50` can never tunnel past the catch
band — for every per-tick level sequence with levels in `{1, 2, 3}` (per-tick
speed `3 + level·2 ≤ 9`) there is a tick at which its position lies strictly
between 500 and 560, so the lane-match collision check applies to it then. -/
theorem claim_C10 (L : ℕ → ℕ) (hL : ∀ n, L n = 1 ∨ L n = 2 ∨ L n = 3) :
    ∃ n, 500 < itemTrajectory L n ∧ itemTrajectory L n < 560 := by
  have hub : ∀ n, speedFor (L n) ≤ 9 := by
    intro n
    rcases hL n with h | h | h <;> rw [h] <;> norm_num [speedFor]
  have hlb : ∀ n, 5 ≤ speedFor (L n) := by
    intro n
    rcases hL n with h | h | h <;> rw [h] <;> norm_num [speedFor]
  have hgrow : ∀ n : ℕ, -50 + 5 * (n : ℚ) ≤ itemTrajectory L n := by
    intro n
    induction n with
    | zero => simp [itemTrajectory]
    | succ m ih =>
        have h5 := hlb m
        simp only [itemTrajectory]
        push_cast
        linarith
  have hex : ∃ n, 500 < itemTrajectory L n := by
    refine ⟨111, ?_⟩
    have hg := hgrow 111
    norm_num at hg
    linarith
  have hspec : 500 < itemTrajectory L (Nat.find hex) := Nat.find_spec hex
  have hne : Nat.find hex ≠ 0 := by
    intro h0
    rw [h0] at hspec
    norm_num [itemTrajectory] at hspec
  obtain ⟨m, hm⟩ : ∃ m, Nat.find hex = m + 1 := ⟨Nat.find hex - 1, by omega⟩
  have hmin : ¬ 500 < itemTrajectory L m := Nat.find_min hex (by omega)
  refine ⟨Nat.find hex, hspec, ?_⟩
  rw [hm]
  simp only [itemTrajectory]
  have h9 := hub m
  have hle := not_lt.1 hmin
  linarith

/-- Witness for C10 with the constant level-1 sequence; at tick 111 the
position is 505, inside the band. -/
theorem claim_C10_witness :
    (∃ n, 500 < itemTrajectory (fun _ => 1) n ∧
      itemTrajectory (fun _ => 1) n < 560) ∧
    itemTrajectory (fun _ => 1) 111 = 505 := by
  constructor
  · exact claim_C10 (fun _ => 1) (fun _ => Or.inl rfl)
  · rw [itemTrajectory_const_one]
    norm_num
